import Mathlib

/-!
Verification of the orchestration engine of the claude-agent-sdk tutorial
repository, shallowly embedded in Lean.

The embedding follows the TypeScript source:
* `src/orchestrator/agent.ts` — `AgentOrchestrator` lifecycle (start / pause /
  resume / stop / cycle loop) and `SubAgentRunner` (message loop, save-report
  tool, stop).
* `src/orchestrator/memory.ts` — `readMemory` / `writeMemory`.
* `src/utils/tracing.ts` — `startSpan` / `endSpan` and the ambient context.
* `src/utils/database.ts` — `longTermMemoryDb` wrappers.

External collaborators (query engine, embedding service, vector store, disk)
are modelled as explicit inputs: the stream of messages a query yields is a
`List` of events, the file system is an association list from paths to
contents, and each fallible external call is parameterised by its outcome.
-/

namespace Orchestrator

/-- Agent status, from `src/orchestrator/types.ts`:
`'running' | 'paused' | 'sleeping' | 'stopped'`. -/
inductive AgentStatus
  | running
  | paused
  | sleeping
  | stopped
deriving DecidableEq, Repr

/-- The mutable fields of `AgentOrchestrator` that drive its status
transitions (`agent.ts`): `status`, `isPaused`, `shouldStop`, whether a sleep
deadline is pending (`sleepUntil` set), whether the sleep wait's timer is
armed (`sleepTimeout` set, which happens only once the wait at line 477
begins), and whether the cycle loop is currently inside `runCycle`. -/
structure AgentState where
  status : AgentStatus
  isPaused : Bool
  shouldStop : Bool
  sleepPending : Bool
  sleepTimerSet : Bool
  inCycle : Bool
deriving DecidableEq, Repr

/-- Initial orchestrator state: the constructor leaves
`status = 'stopped'`, `isPaused = false`, `shouldStop = false`,
no sleep deadline, no armed timer, and no cycle running. -/
def initialAgentState : AgentState :=
  { status := .stopped, isPaused := false, shouldStop := false,
    sleepPending := false, sleepTimerSet := false, inCycle := false }

/-- The atomic status-affecting operations of `AgentOrchestrator`.  Each
constructor corresponds to one code site in `agent.ts` that is executed
atomically (no `await` between its guard and its assignments):

* `start` — `start()`, lines 565–606;
* `pause` — `pause()`, lines 611–636;
* `resume` — `resume()`, lines 641–656;
* `stop` — `stop()` lines 661–705 (net effect, including the final
  `status = 'stopped'` after the loop has been awaited);
* `loopEnter` — top of `cycleLoop()`, lines 531–546 (`status = 'running'`
  and entry into `runCycle`);
* `toolSleep` — `handleSleep`, lines 59–63, invoked by the sleep tool during
  a cycle;
* `cycleSleepStart` — `runCycle` lines 470–477, `status = 'sleeping'` and
  the sleep timer armed;
* `cycleSleepEnd` — the sleep timeout firing, lines 477–484 (it can only
  fire while the timer is still armed);
* `cycleEnd` — `runCycle` returning to the loop;
* `loopExit` — `cycleLoop` lines 556–559, `status = 'stopped'` once
  `shouldStop` is observed. -/
inductive AgentEvent
  | start
  | pause
  | resume
  | stop
  | loopEnter
  | toolSleep
  | cycleSleepStart
  | cycleSleepEnd
  | cycleEnd
  | loopExit
deriving DecidableEq, Repr

/-- One atomic step of the orchestrator.  Guards mirror the source:
`start()` throws unless status is `stopped` (a throw leaves state unchanged);
`pause()` throws when `stopped`, returns early when already paused, and
clears the timer and `sleepUntil` only inside `if (this.sleepTimeout)`
(lines 629–633) — when no sleep wait is in progress, a pending `sleepUntil`
survives the pause; `resume()` returns early unless paused; `stop()` returns
early when already stopped and clears the timer but not `sleepUntil`
(lines 681–684); the loop only enters a cycle when neither stopping nor
paused; `status = 'sleeping'` (line 474) runs, with no pause check, whenever
the stream loop finished with a sleep request still pending, and arms the
timer (line 477). -/
def step (s : AgentState) (e : AgentEvent) : AgentState :=
  match e with
  | .start =>
      if s.status = .stopped then
        { s with status := .running, isPaused := false, shouldStop := false }
      else s
  | .pause =>
      if s.status = .stopped then s
      else if s.isPaused then s
      else if s.sleepTimerSet then
        { s with isPaused := true, status := .paused,
                 sleepTimerSet := false, sleepPending := false }
      else { s with isPaused := true, status := .paused }
  | .resume =>
      if s.isPaused then { s with isPaused := false, status := .running }
      else s
  | .stop =>
      if s.status = .stopped then s
      else { s with shouldStop := true, isPaused := false,
                    status := .stopped, sleepTimerSet := false,
                    inCycle := false }
  | .loopEnter =>
      if !s.shouldStop && !s.isPaused then
        { s with status := .running, inCycle := true }
      else s
  | .toolSleep =>
      if s.inCycle then { s with sleepPending := true } else s
  | .cycleSleepStart =>
      if s.inCycle && s.sleepPending then
        { s with status := .sleeping, sleepTimerSet := true }
      else s
  | .cycleSleepEnd =>
      if s.sleepTimerSet then
        { s with sleepPending := false, sleepTimerSet := false,
                 inCycle := false }
      else s
  | .cycleEnd =>
      if s.inCycle then { s with inCycle := false } else s
  | .loopExit =>
      if s.shouldStop && !s.inCycle then { s with status := .stopped } else s

/-- Run a sequence of orchestrator operations from the initial state. -/
def runEvents (es : List AgentEvent) : AgentState :=
  es.foldl step initialAgentState

/-- The status-transition set claimed in the specification:
{stopped→running, running→paused, running→sleeping, paused→running,
sleeping→running, any→stopped}. -/
def claimedEdge : AgentStatus → AgentStatus → Bool
  | .stopped, .running => true
  | .running, .paused => true
  | .running, .sleeping => true
  | .paused, .running => true
  | .sleeping, .running => true
  | _, .stopped => true
  | _, _ => false

/-- The transition set the code actually realises: the claimed set plus
`sleeping→paused` (pausing a sleeping agent) and `paused→sleeping` (a pause
landing between the stream's result and the start of the sleep wait leaves
`sleepUntil` set, and line 474 then runs with no pause check). -/
def amendedEdge : AgentStatus → AgentStatus → Bool
  | .sleeping, .paused => true
  | .paused, .sleeping => true
  | a, b => claimedEdge a b

/-- Invariant of reachable states: a stopped agent is not inside a cycle
(`status = 'stopped'` is only set by `stop()` / the loop's exit, both after
`runCycle` has returned). -/
def AgentInv (s : AgentState) : Prop :=
  s.status = .stopped → s.inCycle = false

/-- Sub-agent status, from `src/orchestrator/types.ts`:
`'pending' | 'researching' | 'completed' | 'failed'`. -/
inductive SubAgentStatus
  | pending
  | researching
  | completed
  | failed
deriving DecidableEq, Repr

/-- The immutable identity of a `SubAgentRunner` (`subAgent.ts` constructor):
`id`, `parentId`, `task`, `reportPath`. -/
structure RunnerCfg where
  id : String
  parentId : String
  task : String
  reportPath : String
deriving DecidableEq, Repr

/-- The mutable state of a `SubAgentRunner` together with the locals of its
message loop: `status`, `error`, whether `completedAt` has been set, the
`reportSaved` flag, whether `currentQuery` is set, whether `interrupt()` was
issued on the in-flight query, and how many stream messages reached the
content dispatch of the loop. -/
structure SubState where
  status : SubAgentStatus
  error : Option String
  completedAtSet : Bool
  reportSaved : Bool
  hasQuery : Bool
  interrupted : Bool
  processed : Nat
deriving DecidableEq, Repr

/-- A freshly constructed `SubAgentRunner`: `status = 'pending'`, no error,
no completion time, nothing saved, no query. -/
def freshSubState : SubState :=
  { status := .pending, error := none, completedAtSet := false,
    reportSaved := false, hasQuery := false, interrupted := false,
    processed := 0 }

/-- One typed event of the external query engine's stream, as consumed by
`SubAgentRunner.run` (`subAgent.ts` lines 957–1062): an assistant message
(only the names of its `tool_use` blocks matter to the runner's state), a
terminal result with subtype success or error (the error branch carries the
computed `errors[0]` / `'Unknown error'` message), or any other message
type. -/
inductive SubMsg
  | assistant (toolNames : List String)
  | resultSuccess
  | resultError (message : String)
  | other
deriving DecidableEq, Repr

/-- The on-disk file system visible to the engine, as an association list
from paths to file contents; the head entry for a path is the current
content, so a write is a cons. -/
def FS : Type := List (String × String)

/-- `writeFile(path, content, 'utf-8')`. -/
def FS.write (fs : FS) (path content : String) : FS :=
  (path, content) :: fs

/-- `readFile(path, 'utf-8')` (`none` when the file does not exist, i.e.
`existsSync` is false). -/
def FS.read (fs : FS) (path : String) : Option String :=
  List.lookup path fs

namespace SubAgentRunner

/-- `const MAX_MESSAGES = 20` (`subAgent.ts` line 953). -/
def maxMessages : Nat := 20

/-- The error recorded when the message ceiling is exceeded
(`subAgent.ts` line 970). -/
def ceilingError : String :=
  "Stopped after 20 messages - research taking too long"

/-- Content dispatch for one stream message (`subAgent.ts` lines 974–1061):
an assistant message whose `tool_use` blocks include `saveReport` sets
`reportSaved`; a success result sets `completed`/`completedAt` if the report
was saved and otherwise fails with `'Report not saved'`; an error result
fails with the stream's error message.  The ghost counter `processed` counts
messages that reach this dispatch. -/
def handleMsg (s : SubState) (m : SubMsg) : SubState :=
  let s' := { s with processed := s.processed + 1 }
  match m with
  | .assistant toolNames =>
      if toolNames.contains "saveReport" then { s' with reportSaved := true }
      else s'
  | .resultSuccess =>
      if s'.reportSaved then
        { s' with status := .completed, completedAtSet := true }
      else
        { s' with status := .failed, error := some "Report not saved" }
  | .resultError message =>
      { s' with status := .failed, error := some message }
  | .other => s'

/-- The `for await` message loop of `SubAgentRunner.run` (`subAgent.ts`
lines 957–1062): `count` is `messageCount` before the current message; each
iteration first increments it and, when it exceeds `MAX_MESSAGES`,
interrupts the in-flight query, sets `status = 'failed'` with the ceiling
error and breaks out of the stream; otherwise the message body is
dispatched. -/
def processFrom (count : Nat) (ms : List SubMsg) (s : SubState) : SubState :=
  match ms with
  | [] => s
  | m :: rest =>
      let count' := count + 1
      if maxMessages < count' then
        { s with status := .failed, error := some ceilingError,
                 interrupted := true }
      else processFrom count' rest (handleMsg s m)

/-- The statuses the runner takes on after each step of the message loop;
this is the status observation of `processFrom` (same recursion, same
guards). -/
def statusTraceFrom (count : Nat) (ms : List SubMsg) (s : SubState) :
    List SubAgentStatus :=
  match ms with
  | [] => []
  | m :: rest =>
      let count' := count + 1
      if maxMessages < count' then [SubAgentStatus.failed]
      else (handleMsg s m).status ::
        statusTraceFrom count' rest (handleMsg s m)

/-- `SubAgentRunner.run` (`subAgent.ts` lines 877–1109): throws unless the
status is `pending`; otherwise moves to `researching`, creates the query,
consumes the stream, and clears `currentQuery` when the loop is left
(line 1064). -/
def run (cfg : RunnerCfg) (s : SubState) (ms : List SubMsg) :
    Except String SubState :=
  if s.status ≠ .pending then
    .error ("SubAgent " ++ cfg.id ++ " is not in pending status")
  else
    let s0 := { s with status := .researching, hasQuery := true }
    let s1 := processFrom 0 ms s0
    .ok { s1 with hasQuery := false }

/-- `SubAgentRunner.stop` (`subAgent.ts` lines 1130–1139): interrupt and
clear the in-flight query if any; force `failed` / `'Interrupted'` only when
the status is `researching`. -/
def stop (s : SubState) : SubState :=
  let s' := { s with interrupted := s.interrupted || s.hasQuery,
                     hasQuery := false }
  if s'.status = .researching then
    { s' with status := .failed, error := some "Interrupted" }
  else s'

/-- The metadata header the `saveReport` tool prepends to the model-supplied
body (`subAgent.ts` lines 833–842): report title, sub-agent id, parent
orchestrator id, task, and the ISO-8601 generation timestamp, followed by a
blank line. -/
def subAgentReportHeader (cfg : RunnerCfg) (timestamp : String) : String :=
  "# Sub-Agent Research Report\nSub-Agent ID: " ++ cfg.id ++
  "\nParent Orchestrator: " ++ cfg.parentId ++
  "\nTask: " ++ cfg.task ++
  "\nGenerated: " ++ timestamp ++ "\n\n"

/-- The `saveReport` tool handler (`subAgent.ts` lines 818–866): writes the
header followed by the supplied content and a trailing newline to the
runner's report path. -/
def saveReportTool (cfg : RunnerCfg) (timestamp content : String) (fs : FS) :
    FS :=
  FS.write fs cfg.reportPath
    (subAgentReportHeader cfg timestamp ++ content ++ "\n")

/-- `true` for the terminal `result` events of the stream. -/
def isResult : SubMsg → Bool
  | .resultSuccess => true
  | .resultError _ => true
  | _ => false

/-- A stream is well formed when its terminal `result` event, if any, is its
last event — the contract of the external query engine (spec §6: "a terminal
result event"). -/
def wellFormedStream (ms : List SubMsg) : Bool :=
  ms.dropLast.all (fun m => !isResult m)

/-- The forward edges of the sub-agent status machine:
`pending→researching`, `researching→completed`, `researching→failed`, and
staying in place. -/
def forwardEdge : SubAgentStatus → SubAgentStatus → Bool
  | .pending, .researching => true
  | .researching, .completed => true
  | .researching, .failed => true
  | a, b => a == b

end SubAgentRunner

/-- `AgentOrchestrator.stop` stops every registered sub-agent
(`agent.ts` lines 674–678). -/
def stopSubAgents (runners : List SubState) : List SubState :=
  runners.map SubAgentRunner.stop

/-- Fixed pieces of the default memory template (`memory.ts` lines 13–38),
named so containment proofs can cut the template at each interpolation
point. -/
def memoryTemplateHead : String := "# Research Agent Memory - "

def memoryTemplateCreated : String := "\nCreated: "

def memoryTemplateInstructions : String := "\nInstructions: "

def memoryTemplateMiddle : String :=
  "\n\n## Research Query\n(Research query will be specified when agent is created)\n\n## Cycle History\n- ["

def memoryTemplateTail : String :=
  "] Cycle 0: Initial creation\n\n## Research Progress\n### Topics Explored\n(Research topics will be tracked here)\n\n### Sources Found\n(Sources and URLs will be tracked here)\n\n### Key Findings\n(Key findings and insights will be tracked here)\n\n## Current State\nAwaiting first research cycle\n\n## Notes\n(Agent\x27s persistent notes and research observations will appear here)\n"

/-- The default memory template returned by `readMemory` when the file does
not exist (`memory.ts` lines 13–38), built from the agent id, the creation
timestamp (`createdAt.toISOString()`, interpolated twice), and the
instructions. -/
def defaultMemoryTemplate (agentId createdAtIso instructions : String) :
    String :=
  memoryTemplateHead ++ agentId ++
  memoryTemplateCreated ++ createdAtIso ++
  memoryTemplateInstructions ++ instructions ++
  memoryTemplateMiddle ++ createdAtIso ++ memoryTemplateTail

/-- `readMemory` (`memory.ts` lines 7–43): the file contents when the path
exists, the default template otherwise. -/
def readMemory (fs : FS)
    (memoryPath agentId instructions createdAtIso : String) : String :=
  match FS.read fs memoryPath with
  | some contents => contents
  | none => defaultMemoryTemplate agentId createdAtIso instructions

/-- `writeMemory` (`memory.ts` lines 48–54): whole-file overwrite of the
memory path. -/
def writeMemory (fs : FS) (memoryPath content : String) : FS :=
  FS.write fs memoryPath content

/-- The part of an orchestrator's `subAgents` registry that
`readSubAgentReport` consults: sub-agent id to report path. -/
def SubAgentRegistry : Type := List (String × String)

/-- `AgentOrchestrator.readSubAgentReport` (`agent.ts` lines 152–164): throw
`not found` for an unknown id, throw `Report file not found …` when the file
does not exist, otherwise return the file contents; the registry and the
file system come back unchanged (the method only reads). -/
def readSubAgentReport (registry : SubAgentRegistry) (fs : FS)
    (subAgentId : String) : Except String String × SubAgentRegistry × FS :=
  match List.lookup subAgentId registry with
  | none => (.error ("Sub-agent " ++ subAgentId ++ " not found"), registry, fs)
  | some reportPath =>
      match FS.read fs reportPath with
      | none =>
          (.error ("Report file not found for sub-agent " ++ subAgentId
              ++ ": " ++ reportPath), registry, fs)
      | some contents => (.ok contents, registry, fs)

/-- An embedding vector (`number[]`), abstracted over its numeric type. -/
def Embedding : Type := List Rat

/-- A long-term-memory row as returned by the store (`database.ts`
`LongTermMemoryRow`, restricted to the fields the orchestrator reads). -/
structure LongTermMemoryRow where
  id : String
  title : String
  content : String
deriving DecidableEq, Repr

/-- One hit of the store's similarity query (`database.ts`
`LongTermMemorySearchResult`, restricted to the fields the orchestrator
maps). -/
structure LongTermMemorySearchResult where
  title : String
  content : String
  similarity : Rat
deriving DecidableEq, Repr

/-- `longTermMemoryDb.search` (`database.ts` lines 509–532): on a store
error it logs and returns the empty list; otherwise the returned rows. -/
def longTermMemoryDbSearch
    (storeOutcome : Except String (List LongTermMemorySearchResult)) :
    List LongTermMemorySearchResult :=
  match storeOutcome with
  | .error _ => []
  | .ok rows => rows

/-- `longTermMemoryDb.create` (`database.ts` lines 480–504): `none` on a
store error, the inserted row otherwise. -/
def longTermMemoryDbCreate (storeOutcome : Except String LongTermMemoryRow) :
    Option LongTermMemoryRow :=
  match storeOutcome with
  | .error _ => none
  | .ok row => some row

/-- `AgentOrchestrator.saveLongTermMemory` (`agent.ts` lines 169–198),
parameterised by the outcomes of its two external calls: `generateEmbedding`
(its failure is caught, logged, and rethrown) and the store insert (a `null`
row makes the method throw `'Failed to create long-term memory'`). -/
def saveLongTermMemory (embeddingOutcome : Except String Embedding)
    (storeOutcome : Except String LongTermMemoryRow) : Except String String :=
  match embeddingOutcome with
  | .error e => .error e
  | .ok _ =>
      match longTermMemoryDbCreate storeOutcome with
      | none => .error "Failed to create long-term memory"
      | some row => .ok row.id

/-- `AgentOrchestrator.searchLongTermMemory` (`agent.ts` lines 203–226),
parameterised the same way: an embedding failure is rethrown; the store is
queried through `longTermMemoryDb.search` and the rows mapped to
{title, content, similarity}. -/
def searchLongTermMemory (embeddingOutcome : Except String Embedding)
    (storeOutcome : Except String (List LongTermMemorySearchResult)) :
    Except String (List LongTermMemorySearchResult) :=
  match embeddingOutcome with
  | .error e => .error e
  | .ok _ =>
      .ok ((longTermMemoryDbSearch storeOutcome).map
        (fun r => { title := r.title, content := r.content,
                    similarity := r.similarity }))

/-- Span status (`tracing.ts` / `database.ts`):
`'running' | 'completed' | 'error'`. -/
inductive SpanStatus
  | running
  | completed
  | error
deriving DecidableEq, Repr

/-- Span type (`tracing.ts`):
`'cycle' | 'llm' | 'tool' | 'sub_agent' | 'custom'`. -/
inductive SpanType
  | cycle
  | llm
  | tool
  | subAgentSpan
  | custom
deriving DecidableEq, Repr

/-- A span row with the fields `startSpan` / `endSpan` manipulate; the
`end_time` / `duration_ms` / `output` / metadata-merge updates of `endSpan`
are abstracted into the `ended` flag (wall-clock values are external). -/
structure SpanRec where
  trace_id : String
  parent_span_id : Option String
  name : String
  span_type : SpanType
  status : SpanStatus
  ended : Bool
  error : Option String
deriving DecidableEq, Repr

/-- The ambient trace context (`tracing.ts` `TraceContext`). -/
structure TraceContext where
  traceId : String
  currentSpanId : Option String
deriving DecidableEq, Repr

/-- The tracing module's state: the span store and the single module-level
`currentContext` slot (`tracing.ts` line 16). -/
structure TracingState where
  spans : List (String × SpanRec)
  context : Option TraceContext
deriving DecidableEq, Repr

/-- JavaScript `a || b` over optional strings: `undefined` and the empty
string are falsy, so they fall through to `b`. -/
def jsOrString (a b : Option String) : Option String :=
  match a with
  | some s => if s = "" then b else some s
  | none => b

/-- JavaScript `v || null`: the empty string is stored as `null`. -/
def jsNullIfEmpty (o : Option String) : Option String :=
  match o with
  | some "" => none
  | x => x

/-- Replace the stored row for a span id. -/
def updateAssoc (l : List (String × SpanRec)) (key : String) (v : SpanRec) :
    List (String × SpanRec) :=
  l.map (fun p => if p.1 = key then (key, v) else p)

/-- `startSpan` (`tracing.ts` lines 90–136): the trace id is
`options?.traceId || context?.traceId`; when that is falsy no span is
created and `''` is returned.  Otherwise a running span is stored (its id,
`randomUUID()`, supplied by the caller as `newSpanId`), with parent
`options?.parentSpanId || context?.currentSpanId`, and — when the ambient
context refers to the same trace — the context's current span advances to
the new span. -/
def startSpan (st : TracingState) (newSpanId name : String)
    (spanType : SpanType) (optTraceId optParentSpanId : Option String) :
    String × TracingState :=
  match jsOrString optTraceId (st.context.map (fun c => c.traceId)) with
  | none => ("", st)
  | some tid =>
      if tid = "" then ("", st)
      else
        let parentSpanId := jsNullIfEmpty (jsOrString optParentSpanId
          (st.context.bind (fun c => c.currentSpanId)))
        let span : SpanRec :=
          { trace_id := tid, parent_span_id := parentSpanId, name := name,
            span_type := spanType, status := .running, ended := false,
            error := none }
        let spans' := (newSpanId, span) :: st.spans
        let context' :=
          match st.context with
          | some c =>
              if c.traceId = tid then
                some { traceId := tid, currentSpanId := some newSpanId }
              else some c
          | none => none
        (newSpanId, { spans := spans', context := context' })

/-- `endSpan` (`tracing.ts` lines 141–199): an empty span id returns at once
(line 150); an id the store does not know logs a warning and returns
(line 156); otherwise the span is stamped ended with the given status and
error and, if it was the context's current span, the context pointer is
restored to the span's parent (or cleared to the bare trace when it had
none). -/
def endSpan (st : TracingState) (spanId : String) (status : SpanStatus)
    (err : Option String) : TracingState :=
  if spanId = "" then st
  else
    match List.lookup spanId st.spans with
    | none => st
    | some span =>
        let span' := { span with status := status, ended := true,
                                 error := err }
        let spans' := updateAssoc st.spans spanId span'
        let context' :=
          match st.context with
          | some c =>
              if c.currentSpanId = some spanId then
                some { traceId := c.traceId,
                       currentSpanId := span.parent_span_id }
              else some c
          | none => none
        { spans := spans', context := context' }

/-- A concrete open span used to evaluate the tracing operations. -/
def sampleOpenSpan : SpanRec :=
  { trace_id := "t", parent_span_id := none, name := "cycle_1",
    span_type := .cycle, status := .running, ended := false, error := none }

/-- A tracing state with one open span and an active context. -/
def sampleActiveState : TracingState :=
  { spans := [("a", sampleOpenSpan)],
    context := some { traceId := "t", currentSpanId := some "a" } }

/-- A tracing state with one span and no active context. -/
def sampleContextFreeState : TracingState :=
  { spans := [("a", sampleOpenSpan)], context := none }

theorem agentInv_initial : AgentInv initialAgentState := by
  intro h; rfl

theorem agentInv_step (s : AgentState) (hs : AgentInv s) (e : AgentEvent) :
    AgentInv (step s e) := by
  unfold AgentInv at hs ⊢
  cases e <;> simp only [step] <;> (repeat' split) <;>
    intro hst <;> simp_all

theorem agentInv_runEvents (es : List AgentEvent) : AgentInv (runEvents es) := by
  unfold runEvents
  induction es using List.reverseRecOn with
  | nil => exact agentInv_initial
  | append_singleton es e ih =>
      rw [List.foldl_append, List.foldl_cons, List.foldl_nil]
      exact agentInv_step _ ih e

theorem step_edge_amended (s : AgentState) (hs : AgentInv s) (e : AgentEvent) :
    (step s e).status = s.status ∨
      amendedEdge s.status (step s e).status = true := by
  unfold AgentInv at hs
  cases e <;> simp only [step] <;> repeat' split
  all_goals
    first
      | exact Or.inl rfl
      | (cases hst : s.status <;> simp_all [amendedEdge, claimedEdge])

/-- C1 (amended): for every sequence of orchestrator operations from the
initial state and every next operation, the status either stays in place or
moves along an edge of {stopped→running, running→paused, sleeping→paused,
paused→sleeping, running→sleeping, paused→running, sleeping→running,
any→stopped} — the claimed set plus the `sleeping→paused` edge that
`pause()` on a sleeping agent produces, and the `paused→sleeping` edge
produced when a pause lands after the cycle's result but before the sleep
wait begins (the pending `sleepUntil` survives, and line 474 has no pause
check). -/
theorem agent_status_edges (es : List AgentEvent) (e : AgentEvent) :
    (step (runEvents es) e).status = (runEvents es).status ∨
      amendedEdge (runEvents es).status (step (runEvents es) e).status
        = true :=
  step_edge_amended (runEvents es) (agentInv_runEvents es) e

/-- C1 counterexample, two realizable runs outside the claimed edge set:
(1) start, enter a cycle, observe the sleep tool, begin the sleep wait, then
`pause()` — the edge `sleeping→paused`; (2) start, enter a cycle, observe
the sleep tool, then `pause()` before the sleep wait begins (so `sleepUntil`
is not cleared, the timer being unset), after which line 474 still moves the
agent to `sleeping` — the edge `paused→sleeping`.  Neither edge is in the
transition set the claim allows. -/
theorem agent_status_claim_counterexample :
    ((runEvents [.start, .loopEnter, .toolSleep, .cycleSleepStart]).status
        = AgentStatus.sleeping ∧
      (step (runEvents [.start, .loopEnter, .toolSleep, .cycleSleepStart])
          AgentEvent.pause).status = AgentStatus.paused ∧
      claimedEdge AgentStatus.sleeping AgentStatus.paused = false) ∧
    ((runEvents [.start, .loopEnter, .toolSleep, .pause]).status
        = AgentStatus.paused ∧
      (step (runEvents [.start, .loopEnter, .toolSleep, .pause])
          AgentEvent.cycleSleepStart).status = AgentStatus.sleeping ∧
      claimedEdge AgentStatus.paused AgentStatus.sleeping = false) := by
  decide

namespace SubAgentRunner

theorem handleMsg_processed (s : SubState) (m : SubMsg) :
    (handleMsg s m).processed = s.processed + 1 := by
  cases m <;> simp only [handleMsg] <;> (repeat' split) <;> rfl

theorem processFrom_processed_le (ms : List SubMsg) :
    ∀ count s, count ≤ maxMessages →
      (processFrom count ms s).processed
        ≤ s.processed + (maxMessages - count) := by
  induction ms with
  | nil => intro count s h; simp [processFrom]
  | cons m rest ih =>
      intro count s h
      simp only [processFrom]
      split
      · simp
      · rename_i hg
        have h2 := ih (count + 1) (handleMsg s m) (by omega)
        rw [handleMsg_processed] at h2
        omega

theorem processFrom_overflow (ms : List SubMsg) :
    ∀ count s, count ≤ maxMessages → maxMessages < count + ms.length →
      (processFrom count ms s).status = .failed ∧
      (processFrom count ms s).error = some ceilingError ∧
      (processFrom count ms s).interrupted = true := by
  induction ms with
  | nil =>
      intro count s h1 h2
      simp only [List.length_nil, Nat.add_zero] at h2
      omega
  | cons m rest ih =>
      intro count s h1 h2
      simp only [processFrom]
      split
      · exact ⟨rfl, rfl, rfl⟩
      · rename_i hg
        apply ih (count + 1) (handleMsg s m) (by omega)
        simp only [List.length_cons] at h2
        omega

/-- C2: a `SubAgentRunner` run never dispatches more than `MAX_MESSAGES`
(20) stream messages, and as soon as the message count exceeds the ceiling
the runner interrupts the in-flight query and moves to `failed` with the
descriptive ceiling error, leaving the rest of the stream unconsumed. -/
theorem subAgent_message_ceiling (cfg : RunnerCfg) (ms : List SubMsg) :
    ∃ s1, run cfg freshSubState ms = .ok s1 ∧
      s1.processed ≤ maxMessages ∧
      (maxMessages < ms.length →
        s1.status = .failed ∧
        s1.error = some ceilingError ∧
        s1.interrupted = true) := by
  have hrun : run cfg freshSubState ms
      = .ok { processFrom 0 ms
                { freshSubState with status := .researching,
                                     hasQuery := true }
              with hasQuery := false } := rfl
  refine ⟨_, hrun, ?_, ?_⟩
  · have h := processFrom_processed_le ms 0
      { freshSubState with status := .researching, hasQuery := true }
      (Nat.zero_le _)
    simpa [freshSubState] using h
  · intro hlen
    have h := processFrom_overflow ms 0
      { freshSubState with status := .researching, hasQuery := true }
      (Nat.zero_le _) (by omega)
    simpa using h

/-- C2 witness: a stream of 21 messages trips the ceiling. -/
theorem subAgent_message_ceiling_witness :
    ∃ s1, run ⟨"sub-1", "agent-1", "t", "r.md"⟩ freshSubState
        (List.replicate 21 SubMsg.other) = .ok s1 ∧
      s1.processed ≤ maxMessages ∧
      s1.status = .failed ∧
      s1.error = some ceilingError ∧
      s1.interrupted = true := by
  obtain ⟨s1, h1, h2, h3⟩ := subAgent_message_ceiling
    ⟨"sub-1", "agent-1", "t", "r.md"⟩ (List.replicate 21 SubMsg.other)
  obtain ⟨h4, h5, h6⟩ := h3 (by decide)
  exact ⟨s1, h1, h2, h4, h5, h6⟩

theorem handleMsg_status_of_nonResult (s : SubState) (m : SubMsg)
    (h : isResult m = false) : (handleMsg s m).status = s.status := by
  cases m <;> simp only [isResult] at h <;>
    simp only [handleMsg] <;> (repeat' split) <;> first | rfl | cases h

theorem forwardEdge_handleMsg (s : SubState) (m : SubMsg)
    (h : s.status = .researching) :
    forwardEdge s.status (handleMsg s m).status = true := by
  cases m <;> simp only [handleMsg] <;> (repeat' split) <;>
    simp [forwardEdge, h]

theorem statusTrace_chain (ms : List SubMsg) :
    ∀ count s, s.status = .researching → wellFormedStream ms = true →
      List.Chain (fun a b => forwardEdge a b = true) s.status
        (statusTraceFrom count ms s) := by
  induction ms with
  | nil => intro count s _ _; exact List.Chain.nil
  | cons m rest ih =>
      intro count s hres hwf
      simp only [statusTraceFrom]
      split
      · exact List.Chain.cons (by rw [hres]; decide) List.Chain.nil
      · cases rest with
        | nil =>
            exact List.Chain.cons (forwardEdge_handleMsg s m hres)
              List.Chain.nil
        | cons r rs =>
            simp only [wellFormedStream, List.dropLast, List.all_cons,
              Bool.and_eq_true, Bool.not_eq_true'] at hwf
            have hm : isResult m = false := hwf.1
            have hrest : wellFormedStream (r :: rs) = true := by
              simp only [wellFormedStream, List.dropLast]
              exact hwf.2
            have hstat : (handleMsg s m).status = .researching := by
              rw [handleMsg_status_of_nonResult s m hm, hres]
            exact List.Chain.cons (forwardEdge_handleMsg s m hres)
              (ih (count + 1) (handleMsg s m) hstat hrest)

/-- C3: `run()` fails unless the runner is `pending`; for a fresh runner
consuming a well-formed stream (the engine's terminal `result` event, if
any, comes last) the statuses taken on form a forward-only chain along
`pending→researching→{completed,failed}`; and `stop()` leaves an already
`completed` or `failed` runner's status, completion time, and error
untouched. -/
theorem subAgent_status_monotonic (cfg : RunnerCfg) (s : SubState)
    (ms : List SubMsg) :
    (s.status ≠ .pending →
      run cfg s ms
        = .error ("SubAgent " ++ cfg.id ++ " is not in pending status")) ∧
    (wellFormedStream ms = true →
      List.Chain (fun a b => forwardEdge a b = true) SubAgentStatus.pending
        (SubAgentStatus.researching ::
          statusTraceFrom 0 ms
            { freshSubState with status := .researching,
                                 hasQuery := true })) ∧
    (s.status = .completed ∨ s.status = .failed →
      (stop s).status = s.status ∧
      (stop s).completedAtSet = s.completedAtSet ∧
      (stop s).error = s.error) := by
  refine ⟨?_, ?_, ?_⟩
  · intro h; simp [run, h]
  · intro hwf
    have hc := statusTrace_chain ms 0
      { freshSubState with status := .researching, hasQuery := true } rfl hwf
    exact List.Chain.cons (by decide) hc
  · rintro (h | h) <;> simp [stop, h]

/-- C3 witness: a completed runner rejects `run()` and survives `stop()`;
a well-formed two-message stream yields a forward-only status chain. -/
theorem subAgent_status_monotonic_witness :
    (run ⟨"sub-2", "agent-1", "t", "r.md"⟩
        { freshSubState with status := .completed }
        [SubMsg.assistant ["saveReport"], SubMsg.resultSuccess]
      = .error ("SubAgent " ++ "sub-2" ++ " is not in pending status")) ∧
    List.Chain (fun a b => forwardEdge a b = true) SubAgentStatus.pending
      (SubAgentStatus.researching ::
        statusTraceFrom 0 [SubMsg.assistant ["saveReport"],
          SubMsg.resultSuccess]
          { freshSubState with status := .researching, hasQuery := true }) ∧
    (stop { freshSubState with status := .completed }).status
      = .completed := by
  obtain ⟨h1, h2, h3⟩ := subAgent_status_monotonic
    ⟨"sub-2", "agent-1", "t", "r.md"⟩
    { freshSubState with status := .completed }
    [SubMsg.assistant ["saveReport"], SubMsg.resultSuccess]
  exact ⟨h1 (by decide), h2 (by decide), (h3 (Or.inl rfl)).1⟩

theorem processFrom_no_break (ms : List SubMsg) :
    ∀ count s, count + ms.length ≤ maxMessages →
      processFrom count ms s = ms.foldl handleMsg s := by
  induction ms with
  | nil => intro count s _; rfl
  | cons m rest ih =>
      intro count s h
      simp only [List.length_cons] at h
      simp only [processFrom, List.foldl_cons]
      rw [if_neg (by omega), ih (count + 1) (handleMsg s m) (by omega)]

theorem handleMsg_reportSaved_mono (s : SubState) (m : SubMsg)
    (h : s.reportSaved = true) : (handleMsg s m).reportSaved = true := by
  cases m <;> simp only [handleMsg] <;> (repeat' split) <;>
    first | rfl | exact h

theorem foldl_reportSaved_mono (ms : List SubMsg) :
    ∀ s : SubState, s.reportSaved = true →
      (ms.foldl handleMsg s).reportSaved = true := by
  induction ms with
  | nil => intro s h; exact h
  | cons m rest ih =>
      intro s h
      exact ih (handleMsg s m) (handleMsg_reportSaved_mono s m h)

theorem foldl_reportSaved_of_save (ms : List SubMsg) :
    ∀ (s : SubState) (toolNames : List String),
      SubMsg.assistant toolNames ∈ ms →
      toolNames.contains "saveReport" = true →
      (ms.foldl handleMsg s).reportSaved = true := by
  induction ms with
  | nil => intro s t h _; cases h
  | cons m rest ih =>
      intro s t hmem hc
      rcases List.mem_cons.mp hmem with heq | hmem'
      · subst heq
        simp only [List.foldl_cons]
        refine foldl_reportSaved_mono rest _ ?_
        have hmem2 : "saveReport" ∈ t := by simpa using hc
        simp [handleMsg, hmem2]
      · exact ih (handleMsg s m) t hmem' hc

/-- C7: one invocation of the `saveReport` tool performs exactly one write —
it prepends a single file entry at the runner's report path whose content is
the generated header followed by the supplied body and a newline, the header
carrying the sub-agent id, the parent orchestrator id, the task, and the
timestamp; and a run over a stream that invokes the save tool and ends with
a successful result leaves the runner `completed` with `completedAt` set. -/
theorem subAgent_report (cfg : RunnerCfg) (timestamp content : String)
    (fs : FS) :
    (saveReportTool cfg timestamp content fs
        = (cfg.reportPath,
            subAgentReportHeader cfg timestamp ++ content ++ "\n") :: fs ∧
      (∃ a b, subAgentReportHeader cfg timestamp = a ++ cfg.id ++ b) ∧
      (∃ a b, subAgentReportHeader cfg timestamp = a ++ cfg.parentId ++ b) ∧
      (∃ a b, subAgentReportHeader cfg timestamp = a ++ cfg.task ++ b) ∧
      (∃ a b, subAgentReportHeader cfg timestamp = a ++ timestamp ++ b)) ∧
    (∀ pre : List SubMsg, pre.length < maxMessages →
      (∃ toolNames, SubMsg.assistant toolNames ∈ pre ∧
        toolNames.contains "saveReport" = true) →
      ∀ s1, run cfg freshSubState (pre ++ [SubMsg.resultSuccess]) = .ok s1 →
        s1.status = .completed ∧ s1.completedAtSet = true) := by
  constructor
  · refine ⟨rfl, ?_, ?_, ?_, ?_⟩
    · exact ⟨"# Sub-Agent Research Report\nSub-Agent ID: ",
        "\nParent Orchestrator: " ++ cfg.parentId ++ "\nTask: " ++ cfg.task
          ++ "\nGenerated: " ++ timestamp ++ "\n\n",
        by simp [subAgentReportHeader, String.append_assoc]⟩
    · exact ⟨"# Sub-Agent Research Report\nSub-Agent ID: " ++ cfg.id
          ++ "\nParent Orchestrator: ",
        "\nTask: " ++ cfg.task ++ "\nGenerated: " ++ timestamp ++ "\n\n",
        by simp [subAgentReportHeader, String.append_assoc]⟩
    · exact ⟨"# Sub-Agent Research Report\nSub-Agent ID: " ++ cfg.id
          ++ "\nParent Orchestrator: " ++ cfg.parentId ++ "\nTask: ",
        "\nGenerated: " ++ timestamp ++ "\n\n",
        by simp [subAgentReportHeader, String.append_assoc]⟩
    · exact ⟨"# Sub-Agent Research Report\nSub-Agent ID: " ++ cfg.id
          ++ "\nParent Orchestrator: " ++ cfg.parentId ++ "\nTask: "
          ++ cfg.task ++ "\nGenerated: ",
        "\n\n",
        by simp [subAgentReportHeader, String.append_assoc]⟩
  · intro pre hlen hsave s1 hrun
    obtain ⟨toolNames, hmem, hc⟩ := hsave
    have hok : run cfg freshSubState (pre ++ [SubMsg.resultSuccess])
        = Except.ok { processFrom 0 (pre ++ [SubMsg.resultSuccess])
              { freshSubState with status := .researching,
                                   hasQuery := true }
            with hasQuery := false } := rfl
    rw [hok] at hrun
    have hs1 := (Except.ok.inj hrun).symm
    subst hs1
    have hnb := processFrom_no_break (pre ++ [SubMsg.resultSuccess]) 0
      { freshSubState with status := .researching, hasQuery := true }
      (by simp only [List.length_append, List.length_cons, List.length_nil]
          omega)
    have hsaved := foldl_reportSaved_of_save pre
      { freshSubState with status := .researching, hasQuery := true }
      toolNames hmem hc
    show (processFrom 0 (pre ++ [SubMsg.resultSuccess])
        { freshSubState with status := .researching,
                             hasQuery := true }).status = .completed ∧
      (processFrom 0 (pre ++ [SubMsg.resultSuccess])
        { freshSubState with status := .researching,
                             hasQuery := true }).completedAtSet = true
    rw [hnb, List.foldl_append, List.foldl_cons, List.foldl_nil]
    simp [handleMsg, hsaved]

/-- C7 witness: a two-message stream that invokes `saveReport` and completes
successfully; the report file holds header plus body. -/
theorem subAgent_report_witness :
    (saveReportTool ⟨"sub-3", "agent-1", "find things", "rep.md"⟩
        "2025-01-01T00:00:00.000Z" "X" []
      = [("rep.md",
          subAgentReportHeader ⟨"sub-3", "agent-1", "find things", "rep.md"⟩
              "2025-01-01T00:00:00.000Z" ++ "X" ++ "\n")]) ∧
    ({ status := .completed, error := none, completedAtSet := true,
       reportSaved := true, hasQuery := false, interrupted := false,
       processed := 2 } : SubState).status = .completed ∧
    ({ status := .completed, error := none, completedAtSet := true,
       reportSaved := true, hasQuery := false, interrupted := false,
       processed := 2 } : SubState).completedAtSet = true := by
  obtain ⟨⟨hw, _⟩, hrun⟩ := subAgent_report
    ⟨"sub-3", "agent-1", "find things", "rep.md"⟩
    "2025-01-01T00:00:00.000Z" "X" []
  refine ⟨hw, ?_⟩
  exact hrun [SubMsg.assistant ["saveReport"]] (by decide)
    ⟨["saveReport"], by decide, by decide⟩ _ (by rfl)

/-- C10: `stop()` forces `failed` / `'Interrupted'` only from `researching`;
from `pending`, `completed`, or `failed` it leaves status, completion time,
and error untouched, so stopping the parent (which stops every registered
runner) never marks an already-completed sub-agent as failed. -/
theorem subAgent_stop_frame (s : SubState) :
    (s.status = .researching →
      (stop s).status = .failed ∧ (stop s).error = some "Interrupted" ∧
      (stop s).hasQuery = false) ∧
    (s.status ≠ .researching →
      (stop s).status = s.status ∧
      (stop s).completedAtSet = s.completedAtSet ∧
      (stop s).error = s.error) ∧
    (∀ runners : List SubState, s ∈ runners → s.status = .completed →
      stop s ∈ stopSubAgents runners ∧ (stop s).status = .completed) := by
  refine ⟨?_, ?_, ?_⟩
  · intro h; simp [stop, h]
  · intro h; simp [stop, h]
  · intro runners hmem hc
    refine ⟨List.mem_map_of_mem stop hmem, ?_⟩
    simp [stop, hc]

/-- C10 witness: stopping a researching runner fails it with
`'Interrupted'`; stopping a completed runner (also through the parent's
stop-all) leaves it completed. -/
theorem subAgent_stop_frame_witness :
    ((stop { freshSubState with status := .researching, hasQuery := true
      }).status = .failed ∧
      (stop { freshSubState with status := .researching, hasQuery := true
        }).error = some "Interrupted") ∧
    ((stop { freshSubState with status := .completed, completedAtSet := true
      }).status
        = ({ freshSubState with status := .completed, completedAtSet := true
          } : SubState).status ∧
      (stop { freshSubState with status := .completed, completedAtSet := true
        }).completedAtSet
        = ({ freshSubState with status := .completed, completedAtSet := true
          } : SubState).completedAtSet) ∧
    (stop { freshSubState with status := .completed, completedAtSet := true }
        ∈ stopSubAgents
          [{ freshSubState with status := .completed, completedAtSet := true
           }] ∧
      (stop { freshSubState with status := .completed, completedAtSet := true
        }).status = .completed) := by
  obtain ⟨hr, _, _⟩ := subAgent_stop_frame
    { freshSubState with status := .researching, hasQuery := true }
  obtain ⟨_, hf, hp⟩ := subAgent_stop_frame
    { freshSubState with status := .completed, completedAtSet := true }
  obtain ⟨hr1, hr2, _⟩ := hr rfl
  obtain ⟨hf1, hf2, _⟩ := hf (by decide)
  exact ⟨⟨hr1, hr2⟩, ⟨hf1, hf2⟩,
    hp [{ freshSubState with status := .completed, completedAtSet := true }]
      (List.mem_singleton_self _) rfl⟩

end SubAgentRunner

/-- C6: writing memory content `m` to a path and reading it back returns
exactly `m`; reading a path with no file returns the default template, which
contains the agent id, the creation timestamp, and the instructions. -/
theorem memory_roundtrip (fs : FS)
    (p m agentId instructions createdAtIso : String) :
    readMemory (writeMemory fs p m) p agentId instructions createdAtIso
      = m ∧
    (FS.read fs p = none →
      readMemory fs p agentId instructions createdAtIso
        = defaultMemoryTemplate agentId createdAtIso instructions) ∧
    (∃ a b, defaultMemoryTemplate agentId createdAtIso instructions
      = a ++ agentId ++ b) ∧
    (∃ a b, defaultMemoryTemplate agentId createdAtIso instructions
      = a ++ createdAtIso ++ b) ∧
    (∃ a b, defaultMemoryTemplate agentId createdAtIso instructions
      = a ++ instructions ++ b) := by
  refine ⟨?_, ?_, ?_, ?_, ?_⟩
  · simp [readMemory, writeMemory, FS.read, FS.write, List.lookup]
  · intro h; simp [readMemory, h]
  · exact ⟨memoryTemplateHead,
      memoryTemplateCreated ++ createdAtIso ++ memoryTemplateInstructions
        ++ instructions ++ memoryTemplateMiddle ++ createdAtIso
        ++ memoryTemplateTail,
      by simp [defaultMemoryTemplate, String.append_assoc]⟩
  · exact ⟨memoryTemplateHead ++ agentId ++ memoryTemplateCreated,
      memoryTemplateInstructions ++ instructions ++ memoryTemplateMiddle
        ++ createdAtIso ++ memoryTemplateTail,
      by simp [defaultMemoryTemplate, String.append_assoc]⟩
  · exact ⟨memoryTemplateHead ++ agentId ++ memoryTemplateCreated
        ++ createdAtIso ++ memoryTemplateInstructions,
      memoryTemplateMiddle ++ createdAtIso ++ memoryTemplateTail,
      by simp [defaultMemoryTemplate, String.append_assoc]⟩

/-- C6 witness: round trip at a concrete path and missing-file read of an
empty file system. -/
theorem memory_roundtrip_witness :
    readMemory (writeMemory [] "mem.md" "M content") "mem.md" "agent-1"
        "do research" "2025-01-01T00:00:00.000Z" = "M content" ∧
    readMemory [] "mem.md" "agent-1" "do research" "2025-01-01T00:00:00.000Z"
      = defaultMemoryTemplate "agent-1" "2025-01-01T00:00:00.000Z"
          "do research" := by
  obtain ⟨h1, h2, _⟩ := memory_roundtrip [] "mem.md" "M content" "agent-1"
    "do research" "2025-01-01T00:00:00.000Z"
  exact ⟨h1, h2 rfl⟩

/-- C4: `readSubAgentReport` fails with the not-found error for an unknown
id, fails with the report-unavailable error when the report file does not
exist yet, returns the file contents verbatim otherwise, and in every case
leaves the registry and the file system unchanged. -/
theorem readSubAgentReport_spec (registry : SubAgentRegistry) (fs : FS)
    (subAgentId : String) :
    (readSubAgentReport registry fs subAgentId).2 = (registry, fs) ∧
    (List.lookup subAgentId registry = none →
      (readSubAgentReport registry fs subAgentId).1
        = .error ("Sub-agent " ++ subAgentId ++ " not found")) ∧
    (∀ reportPath, List.lookup subAgentId registry = some reportPath →
      FS.read fs reportPath = none →
      (readSubAgentReport registry fs subAgentId).1
        = .error ("Report file not found for sub-agent " ++ subAgentId
            ++ ": " ++ reportPath)) ∧
    (∀ reportPath contents,
      List.lookup subAgentId registry = some reportPath →
      FS.read fs reportPath = some contents →
      (readSubAgentReport registry fs subAgentId).1 = .ok contents) := by
  refine ⟨?_, ?_, ?_, ?_⟩
  · cases hreg : List.lookup subAgentId registry with
    | none => simp [readSubAgentReport, hreg]
    | some reportPath =>
        cases hfs : FS.read fs reportPath with
        | none => simp [readSubAgentReport, hreg, hfs]
        | some contents => simp [readSubAgentReport, hreg, hfs]
  · intro h; simp [readSubAgentReport, h]
  · intro reportPath h1 h2; simp [readSubAgentReport, h1, h2]
  · intro reportPath contents h1 h2; simp [readSubAgentReport, h1, h2]

/-- C4 witness: the three outcomes at concrete registries and file
systems. -/
theorem readSubAgentReport_spec_witness :
    (readSubAgentReport [] [] "s1").1
      = .error ("Sub-agent " ++ "s1" ++ " not found") ∧
    (readSubAgentReport [("s1", "p1.md")] [] "s1").1
      = .error ("Report file not found for sub-agent " ++ "s1" ++ ": "
          ++ "p1.md") ∧
    (readSubAgentReport [("s1", "p1.md")] [("p1.md", "the report")] "s1").1
      = .ok "the report" ∧
    (readSubAgentReport [("s1", "p1.md")] [("p1.md", "the report")] "s1").2
      = ([("s1", "p1.md")], [("p1.md", "the report")]) := by
  obtain ⟨_, hnf, _, _⟩ := readSubAgentReport_spec [] [] "s1"
  obtain ⟨_, _, hna, _⟩ := readSubAgentReport_spec [("s1", "p1.md")] [] "s1"
  obtain ⟨hst, _, _, hok⟩ := readSubAgentReport_spec [("s1", "p1.md")]
    [("p1.md", "the report")] "s1"
  exact ⟨hnf rfl, hna "p1.md" rfl rfl, hok "p1.md" "the report" rfl rfl, hst⟩

/-- C5 counterexample: with a working embedding service but a failing vector
store, `searchLongTermMemory` returns a normal empty result instead of
raising — the store failure is swallowed by `longTermMemoryDb.search`. -/
theorem ltm_search_counterexample :
    searchLongTermMemory (Except.ok ([1] : Embedding))
        (Except.error "store down")
      = Except.ok ([] : List LongTermMemorySearchResult) := rfl

/-- C5 (amended): embedding-service failures propagate out of both
`saveLongTermMemory` and `searchLongTermMemory`; a store failure makes
`saveLongTermMemory` raise (`'Failed to create long-term memory'`), but in
`searchLongTermMemory` it is swallowed by the database wrapper, which
returns the empty result list. -/
theorem ltm_error_propagation :
    (∀ (e : String) (storeOutcome : Except String LongTermMemoryRow),
      saveLongTermMemory (Except.error e) storeOutcome = Except.error e) ∧
    (∀ (emb : Embedding) (e : String),
      saveLongTermMemory (Except.ok emb) (Except.error e)
        = Except.error "Failed to create long-term memory") ∧
    (∀ (e : String)
        (storeOutcome : Except String (List LongTermMemorySearchResult)),
      searchLongTermMemory (Except.error e) storeOutcome = Except.error e) ∧
    (∀ (emb : Embedding) (e : String),
      searchLongTermMemory (Except.ok emb) (Except.error e)
        = Except.ok []) := by
  refine ⟨fun e st => rfl, fun emb e => rfl, fun e st => rfl,
    fun emb e => rfl⟩

/-- C8: `endSpan` on the empty span id or on an id the store does not know
is a no-op: the whole tracing state — span store and active context — is
returned unchanged, and no error is raised (the function is total). -/
theorem endSpan_unknown_noop (st : TracingState) (spanId : String)
    (status : SpanStatus) (err : Option String)
    (h : spanId = "" ∨ List.lookup spanId st.spans = none) :
    endSpan st spanId status err = st := by
  rcases h with h | h
  · simp [endSpan, h]
  · by_cases he : spanId = ""
    · simp [endSpan, he]
    · simp [endSpan, he, h]

/-- C8 witness: ending the empty id and an unknown id on a state with a live
span and active context changes nothing. -/
theorem endSpan_unknown_noop_witness :
    endSpan sampleActiveState "" .completed none = sampleActiveState ∧
    endSpan sampleActiveState "unknown-id" .error (some "boom")
      = sampleActiveState := by
  constructor
  · exact endSpan_unknown_noop sampleActiveState "" .completed none
      (Or.inl rfl)
  · exact endSpan_unknown_noop sampleActiveState "unknown-id" .error
      (some "boom") (Or.inr rfl)

/-- C9: when no trace context is active and no explicit `traceId` option is
given, `startSpan` stores nothing and returns the empty string with the
state unchanged; `endSpan` of that empty string is likewise a no-op, so a
`startSpan`/`endSpan` pair outside any trace records nothing and never
raises (both functions are total). -/
theorem startSpan_no_context (st : TracingState) (newSpanId name : String)
    (spanType : SpanType) (optParentSpanId : Option String)
    (h : st.context = none) :
    startSpan st newSpanId name spanType none optParentSpanId = ("", st) ∧
    endSpan st "" .completed none = st := by
  constructor
  · simp [startSpan, jsOrString, h]
  · simp [endSpan]

/-- C9 witness: a `startSpan`/`endSpan` pair with no active context and no
explicit trace id leaves a nonempty span store untouched. -/
theorem startSpan_no_context_witness :
    startSpan sampleContextFreeState "new-span" "llm_query" .llm none none
      = ("", sampleContextFreeState) ∧
    endSpan sampleContextFreeState "" .completed none
      = sampleContextFreeState :=
  startSpan_no_context sampleContextFreeState "new-span" "llm_query" .llm
    none rfl

end Orchestrator
